import Mathlib

/-!
Verification of `docs/MCsend.py`, a script that opens a UDP datagram socket,
sets the IP-level multicast TTL option to 2, and sends the single payload
`b"robot"` to multicast group 239.255.1.1, port 49788.

The script is embedded as an oracle-driven trace semantics: an `Oracle`
decides, for each system call the script attempts, whether the platform
accepts it (`none`) or rejects it with an error message (`some e`).
`runScript` replays the script's straight-line body against the oracle,
recording the trace of attempted calls, the datagrams actually emitted
(each with a snapshot of the socket's option state at send time), the
lines written to stdout and stderr, the files written, and the process
exit status.  An uncaught Python exception prints a traceback to stderr
and terminates the interpreter with exit status 1; falling off the end of
the module yields exit status 0.
-/

namespace MCsend

/-- Address families offered by the socket API (`socket.AF_INET`, ...). -/
inductive AddrFamily where
  | AF_INET
  | AF_INET6
  deriving DecidableEq

/-- Socket kinds offered by the socket API (`socket.SOCK_DGRAM`, ...). -/
inductive SockType where
  | SOCK_DGRAM
  | SOCK_STREAM
  deriving DecidableEq

/-- Transport protocols offered by the socket API (`socket.IPPROTO_UDP`, ...). -/
inductive Proto where
  | IPPROTO_UDP
  | IPPROTO_TCP
  deriving DecidableEq

/-- Socket option levels (`socket.IPPROTO_IP`, `socket.SOL_SOCKET`). -/
inductive OptLevel where
  | IPPROTO_IP
  | SOL_SOCKET
  deriving DecidableEq

/-- Socket option names relevant to multicast sockets. -/
inductive OptName where
  | IP_MULTICAST_TTL
  | IP_ADD_MEMBERSHIP
  deriving DecidableEq

/-- A system call on the socket API as observable in a trace.  The script
only ever issues `socket`, `setsockopt` and `sendto`; the remaining
constructors (`bind`, `recvfrom`, `close`) are part of the API surface and
let us state that the script never performs them. -/
inductive SysCall where
  | socket (family : AddrFamily) (type : SockType) (proto : Proto)
  | setsockopt (level : OptLevel) (optname : OptName) (value : Nat)
  | sendto (payload : List Nat) (destHost : String) (destPort : Nat)
  | bind (host : String) (port : Nat)
  | recvfrom (bufsize : Nat)
  | close
  deriving DecidableEq

/-- `MCAST_GRP = '239.255.1.1'` (line 5 of the script). -/
def MCAST_GRP : String := "239.255.1.1"

/-- `MCAST_PORT = 49788` (line 6 of the script). -/
def MCAST_PORT : Nat := 49788

/-- `MULTICAST_TTL = 2` (line 12 of the script). -/
def MULTICAST_TTL : Nat := 2

/-- The byte sequence of the Python literal `b"robot"` (line 19). -/
def robotPayload : List Nat := "robot".toList.map Char.toNat

/-- The socket's option state: an association list from (level, name) to the
value most recently set, most recent first. -/
abbrev SockOptState := List ((OptLevel × OptName) × Nat)

/-- Look up a socket option (the semantics of `getsockopt`): the most
recently set value for the given level and name, if any. -/
def getOpt : SockOptState → OptLevel → OptName → Option Nat
  | [], _, _ => none
  | ((ln, v) :: rest), lv, nm =>
      if ln = (lv, nm) then some v else getOpt rest lv nm

/-- Record a socket option (the state effect of a successful `setsockopt`). -/
def setOpt (opts : SockOptState) (lv : OptLevel) (nm : OptName) (v : Nat) :
    SockOptState :=
  ((lv, nm), v) :: opts

/-- A UDP datagram emitted on the network, together with a snapshot of the
sending socket's option state at the moment of the send. -/
structure Datagram where
  payload : List Nat
  destHost : String
  destPort : Nat
  optsAtSend : SockOptState
  deriving DecidableEq

/-- The observable outcome of one invocation of the script. -/
structure Outcome where
  trace : List SysCall
  sent : List Datagram
  stdoutLines : List String
  stderrLines : List String
  filesWritten : List String
  exitCode : Nat
  deriving DecidableEq

/-- The platform's response to each attempted system call: `none` means the
call succeeds, `some e` means it fails with platform error message `e`. -/
abbrev Oracle := SysCall → Option String

/-- The diagnostic the Python interpreter prints to stderr when an OSError
raised by a socket call propagates uncaught out of the module body. -/
def pythonTraceback (e : String) : String :=
  "Traceback (most recent call last): OSError: " ++ e

/-- Line 14: `socket.socket(socket.AF_INET, socket.SOCK_DGRAM, socket.IPPROTO_UDP)`. -/
def socketCall : SysCall :=
  SysCall.socket AddrFamily.AF_INET SockType.SOCK_DGRAM Proto.IPPROTO_UDP

/-- Line 15: `sock.setsockopt(socket.IPPROTO_IP, socket.IP_MULTICAST_TTL, MULTICAST_TTL)`. -/
def ttlCall : SysCall :=
  SysCall.setsockopt OptLevel.IPPROTO_IP OptName.IP_MULTICAST_TTL MULTICAST_TTL

/-- Line 19: `sock.sendto(b"robot", (MCAST_GRP, MCAST_PORT))`. -/
def sendCall : SysCall :=
  SysCall.sendto robotPayload MCAST_GRP MCAST_PORT

/-- The script body (lines 14-19 of `docs/MCsend.py`), replayed against a
platform oracle.  `argv` and `env` are the process's command-line arguments
and environment; the script imports only `socket` and touches neither.
Each call either succeeds (execution continues) or raises, in which case the
interpreter prints a traceback carrying the platform error and exits with
status 1; after the final `sendto` the module ends and the interpreter
exits with status 0. -/
def runScript (argv : List String) (env : String → Option String)
    (ok : Oracle) : Outcome :=
  match ok socketCall with
  | some e =>
      { trace := [socketCall], sent := [], stdoutLines := [],
        stderrLines := [pythonTraceback e], filesWritten := [], exitCode := 1 }
  | none =>
      match ok ttlCall with
      | some e =>
          { trace := [socketCall, ttlCall], sent := [], stdoutLines := [],
            stderrLines := [pythonTraceback e], filesWritten := [],
            exitCode := 1 }
      | none =>
          match ok sendCall with
          | some e =>
              { trace := [socketCall, ttlCall, sendCall], sent := [],
                stdoutLines := [], stderrLines := [pythonTraceback e],
                filesWritten := [], exitCode := 1 }
          | none =>
              { trace := [socketCall, ttlCall, sendCall],
                sent := [{ payload := robotPayload, destHost := MCAST_GRP,
                           destPort := MCAST_PORT,
                           optsAtSend := setOpt [] OptLevel.IPPROTO_IP
                             OptName.IP_MULTICAST_TTL MULTICAST_TTL }],
                stdoutLines := [], stderrLines := [], filesWritten := [],
                exitCode := 0 }

/-- An invocation is successful when the platform accepts all three calls
the script makes. -/
def Succeeds (ok : Oracle) : Prop :=
  ok socketCall = none ∧ ok ttlCall = none ∧ ok sendCall = none

/-- The all-accepting platform, used as a concrete successful run. -/
def acceptAll : Oracle := fun _ => none

/-- An empty environment, used as a concrete input. -/
def emptyEnv : String → Option String := fun _ => none

/-- A concrete platform error message, used in concrete failing runs. -/
def enosys : String := "ENOSYS"

/-- A platform that rejects every call, used as a concrete failing run. -/
def rejectAll : Oracle := fun _ => some enosys

/-- A platform that rejects exactly the multicast-TTL `setsockopt`, used as
a concrete run on a platform without multicast socket options. -/
def rejectTTL : Oracle := fun c => if c = ttlCall then some enosys else none

/-- Recognises a `sendto` call in a trace. -/
def isSendto : SysCall → Bool
  | SysCall.sendto _ _ _ => true
  | _ => false

/-- Recognises a `bind` call in a trace. -/
def isBind : SysCall → Bool
  | SysCall.bind _ _ => true
  | _ => false

/-- Recognises a `recvfrom` call in a trace. -/
def isRecv : SysCall → Bool
  | SysCall.recvfrom _ => true
  | _ => false

/-- Recognises a `close` call in a trace. -/
def isClose : SysCall → Bool
  | SysCall.close => true
  | _ => false

/-- Recognises a multicast-group join (`setsockopt` with
`IP_ADD_MEMBERSHIP`) in a trace. -/
def isJoin : SysCall → Bool
  | SysCall.setsockopt _ OptName.IP_ADD_MEMBERSHIP _ => true
  | _ => false

/-- C1: for every successful invocation, the script opens a connectionless
IPv4/UDP datagram socket (the first call of the trace is
`socket(AF_INET, SOCK_DGRAM, IPPROTO_UDP)`) and emits a single UDP datagram
whose destination is host 239.255.1.1, port 49788, and whose payload is
exactly the 5 ASCII bytes 72 6F 62 6F 74 ("robot"), with no extra framing. -/
theorem single_robot_datagram (argv : List String)
    (env : String → Option String) (ok : Oracle) (h : Succeeds ok) :
    (runScript argv env ok).trace.head? =
      some (SysCall.socket AddrFamily.AF_INET SockType.SOCK_DGRAM
        Proto.IPPROTO_UDP) ∧
    ((runScript argv env ok).sent.map
        (fun d => (d.payload, d.destHost, d.destPort))) =
      [([0x72, 0x6F, 0x62, 0x6F, 0x74], "239.255.1.1", 49788)] := by
  obtain ⟨h1, h2, h3⟩ := h
  simp only [runScript, h1, h2, h3]
  refine ⟨rfl, ?_⟩
  simp [robotPayload, MCAST_GRP, MCAST_PORT]

/-- Witness for C1 at the all-accepting platform. -/
theorem single_robot_datagram_witness :
    (runScript [] emptyEnv acceptAll).trace.head? =
      some (SysCall.socket AddrFamily.AF_INET SockType.SOCK_DGRAM
        Proto.IPPROTO_UDP) ∧
    ((runScript [] emptyEnv acceptAll).sent.map
        (fun d => (d.payload, d.destHost, d.destPort))) =
      [([0x72, 0x6F, 0x62, 0x6F, 0x74], "239.255.1.1", 49788)] :=
  single_robot_datagram [] emptyEnv acceptAll ⟨rfl, rfl, rfl⟩

/-- C2: for every invocation, the multicast-TTL `setsockopt` at level
`IPPROTO_IP` is executed strictly before the `sendto` (a `sendto` appears
in the trace only as the last call of the full three-call trace, after the
`setsockopt`), and every datagram actually sent carries a socket-option
snapshot in which the `IP_MULTICAST_TTL` option equals 2. -/
theorem multicast_ttl_set_before_send (argv : List String)
    (env : String → Option String) (ok : Oracle) :
    ((runScript argv env ok).trace = [socketCall, ttlCall, sendCall] ∨
      sendCall ∉ (runScript argv env ok).trace) ∧
    ∀ d ∈ (runScript argv env ok).sent,
      getOpt d.optsAtSend OptLevel.IPPROTO_IP OptName.IP_MULTICAST_TTL =
        some MULTICAST_TTL := by
  unfold runScript
  rcases h1 : ok socketCall with _ | e1
  · rcases h2 : ok ttlCall with _ | e2
    · rcases h3 : ok sendCall with _ | e3
      · refine ⟨Or.inl rfl, ?_⟩
        intro d hd
        simp only [List.mem_singleton] at hd
        subst hd
        rfl
      · exact ⟨Or.inl rfl, by simp⟩
    · refine ⟨Or.inr ?_, by simp⟩
      simp [socketCall, ttlCall, sendCall]
  · refine ⟨Or.inr ?_, by simp⟩
    simp [socketCall, sendCall]

/-- C3: whichever of the three calls fails first, the process terminates
with a non-zero exit status (1), prints the interpreter traceback carrying
the platform error to stderr, emits no datagram, and attempts no call
twice (no retry) and no `sendto` to any destination (no fallback). -/
theorem failure_terminates_nonzero (argv : List String)
    (env : String → Option String) (ok : Oracle) (e : String)
    (h : ok socketCall = some e ∨
      (ok socketCall = none ∧ ok ttlCall = some e) ∨
      (ok socketCall = none ∧ ok ttlCall = none ∧ ok sendCall = some e)) :
    (runScript argv env ok).exitCode ≠ 0 ∧
    (runScript argv env ok).stderrLines = [pythonTraceback e] ∧
    (runScript argv env ok).sent = [] ∧
    (runScript argv env ok).trace.Nodup := by
  rcases h with h1 | ⟨h1, h2⟩ | ⟨h1, h2, h3⟩
  · simp only [runScript, h1]
    all_goals simp [socketCall, ttlCall, sendCall]
  · simp only [runScript, h1, h2]
    all_goals simp [socketCall, ttlCall, sendCall]
  · simp only [runScript, h1, h2, h3]
    all_goals simp [socketCall, ttlCall, sendCall]

/-- Witness for C3 at a platform that rejects every call: the socket
creation itself fails. -/
theorem failure_terminates_nonzero_witness :
    (runScript [] emptyEnv rejectAll).exitCode ≠ 0 ∧
    (runScript [] emptyEnv rejectAll).stderrLines = [pythonTraceback enosys] ∧
    (runScript [] emptyEnv rejectAll).sent = [] ∧
    (runScript [] emptyEnv rejectAll).trace.Nodup :=
  failure_terminates_nonzero [] emptyEnv rejectAll enosys (Or.inl rfl)

/-- C4: on a platform where the multicast-TTL `setsockopt` fails, the
process exits non-zero, no datagram of any kind is emitted, and no
`sendto` call of any form is ever executed. -/
theorem ttl_failure_sends_nothing (argv : List String)
    (env : String → Option String) (ok : Oracle) (e : String)
    (h : ok ttlCall = some e) :
    (runScript argv env ok).exitCode ≠ 0 ∧
    (runScript argv env ok).sent = [] ∧
    (runScript argv env ok).trace.filter isSendto = [] := by
  rcases h1 : ok socketCall with _ | e1
  · simp only [runScript, h1, h]
    all_goals simp [socketCall, ttlCall, isSendto, List.filter]
  · simp only [runScript, h1]
    all_goals simp [socketCall, isSendto, List.filter]

/-- Witness for C4 at a platform that rejects exactly the multicast-TTL
option. -/
theorem ttl_failure_sends_nothing_witness :
    (runScript [] emptyEnv rejectTTL).exitCode ≠ 0 ∧
    (runScript [] emptyEnv rejectTTL).sent = [] ∧
    (runScript [] emptyEnv rejectTTL).trace.filter isSendto = [] :=
  ttl_failure_sends_nothing [] emptyEnv rejectTTL enosys (by rfl)

/-- C5: on every successful invocation exactly one UDP packet is emitted:
the trace contains exactly one `sendto`, that `sendto` is the one send of
`b"robot"` to the multicast group, and exactly one datagram reaches the
network. -/
theorem exactly_one_send (argv : List String)
    (env : String → Option String) (ok : Oracle) (h : Succeeds ok) :
    (runScript argv env ok).trace.filter isSendto = [sendCall] ∧
    (runScript argv env ok).trace.count sendCall = 1 ∧
    (runScript argv env ok).sent.length = 1 := by
  obtain ⟨h1, h2, h3⟩ := h
  simp only [runScript, h1, h2, h3]
  refine ⟨rfl, ?_, rfl⟩
  simp [socketCall, ttlCall, sendCall, List.count_cons]

/-- Witness for C5 at the all-accepting platform. -/
theorem exactly_one_send_witness :
    (runScript [] emptyEnv acceptAll).trace.filter isSendto = [sendCall] ∧
    (runScript [] emptyEnv acceptAll).trace.count sendCall = 1 ∧
    (runScript [] emptyEnv acceptAll).sent.length = 1 :=
  exactly_one_send [] emptyEnv acceptAll ⟨rfl, rfl, rfl⟩

/-- C6: the emitted output is deterministic across runs: any two successful
invocations, whatever their arguments, environments and platforms, produce
identical outcomes, in particular identical datagrams (same destination
address, port and payload). -/
theorem deterministic_across_runs (a1 a2 : List String)
    (e1 e2 : String → Option String) (ok1 ok2 : Oracle)
    (h1 : Succeeds ok1) (h2 : Succeeds ok2) :
    runScript a1 e1 ok1 = runScript a2 e2 ok2 ∧
    (runScript a1 e1 ok1).sent = (runScript a2 e2 ok2).sent := by
  obtain ⟨p1, q1, r1⟩ := h1
  obtain ⟨p2, q2, r2⟩ := h2
  refine ⟨?_, ?_⟩ <;> simp [runScript, p1, q1, r1, p2, q2, r2]

/-- Witness for C6: two distinct successful runs agree. -/
theorem deterministic_across_runs_witness :
    runScript [] emptyEnv acceptAll = runScript ["x"] emptyEnv acceptAll ∧
    (runScript [] emptyEnv acceptAll).sent =
      (runScript ["x"] emptyEnv acceptAll).sent :=
  deterministic_across_runs [] ["x"] emptyEnv emptyEnv acceptAll acceptAll
    ⟨rfl, rfl, rfl⟩ ⟨rfl, rfl, rfl⟩

/-- C7: on every successful invocation the script writes nothing to stdout,
persists no files, its outcome does not depend on the environment
variables, and its only side effect is the single emitted UDP packet. -/
theorem no_other_side_effects (argv : List String)
    (env env2 : String → Option String) (ok : Oracle) (h : Succeeds ok) :
    (runScript argv env ok).stdoutLines = [] ∧
    (runScript argv env ok).filesWritten = [] ∧
    runScript argv env ok = runScript argv env2 ok ∧
    (runScript argv env ok).sent.length = 1 := by
  obtain ⟨h1, h2, h3⟩ := h
  simp [runScript, h1, h2, h3]

/-- Witness for C7 at the all-accepting platform with two environments. -/
theorem no_other_side_effects_witness :
    (runScript [] emptyEnv acceptAll).stdoutLines = [] ∧
    (runScript [] emptyEnv acceptAll).filesWritten = [] ∧
    runScript [] emptyEnv acceptAll =
      runScript [] (fun _ => some enosys) acceptAll ∧
    (runScript [] emptyEnv acceptAll).sent.length = 1 :=
  no_other_side_effects [] emptyEnv (fun _ => some enosys) acceptAll
    ⟨rfl, rfl, rfl⟩

/-- C8: on every successful invocation the script falls off the end of the
module and the interpreter reports the default exit status 0. -/
theorem success_exit_status_zero (argv : List String)
    (env : String → Option String) (ok : Oracle) (h : Succeeds ok) :
    (runScript argv env ok).exitCode = 0 := by
  obtain ⟨h1, h2, h3⟩ := h
  simp only [runScript, h1, h2, h3]

/-- Witness for C8 at the all-accepting platform. -/
theorem success_exit_status_zero_witness :
    (runScript [] emptyEnv acceptAll).exitCode = 0 :=
  success_exit_status_zero [] emptyEnv acceptAll ⟨rfl, rfl, rfl⟩

/-- C9: the script never inspects its command-line arguments, so for any
two argument vectors the whole outcome — in particular the emitted
datagrams and the exit status — is identical; extra arguments are ignored,
not rejected. -/
theorem argv_ignored (a1 a2 : List String) (env : String → Option String)
    (ok : Oracle) :
    runScript a1 env ok = runScript a2 env ok ∧
    (runScript a1 env ok).sent = (runScript a2 env ok).sent ∧
    (runScript a1 env ok).exitCode = (runScript a2 env ok).exitCode :=
  ⟨rfl, rfl, rfl⟩

/-- C10: on every invocation the only operations performed on the socket
are at most one `setsockopt` (the multicast-TTL one) and at most one
`sendto` (the robot send); the socket is never bound, never read from,
never joined to the multicast group, and never closed. -/
theorem socket_used_minimally (argv : List String)
    (env : String → Option String) (ok : Oracle) :
    (runScript argv env ok).trace.filter isBind = [] ∧
    (runScript argv env ok).trace.filter isRecv = [] ∧
    (runScript argv env ok).trace.filter isClose = [] ∧
    (runScript argv env ok).trace.filter isJoin = [] ∧
    (runScript argv env ok).trace.count ttlCall ≤ 1 ∧
    (runScript argv env ok).trace.count sendCall ≤ 1 := by
  rcases h1 : ok socketCall with _ | e1
  · rcases h2 : ok ttlCall with _ | e2
    · rcases h3 : ok sendCall with _ | e3
      · simp only [runScript, h1, h2, h3]
        all_goals simp [socketCall, ttlCall, sendCall, List.count_cons,
          List.filter, isBind, isRecv, isClose, isJoin]
      · simp only [runScript, h1, h2, h3]
        all_goals simp [socketCall, ttlCall, sendCall, List.count_cons,
          List.filter, isBind, isRecv, isClose, isJoin]
    · simp only [runScript, h1, h2]
      all_goals simp [socketCall, ttlCall, sendCall, List.count_cons,
        List.filter, isBind, isRecv, isClose, isJoin]
  · simp only [runScript, h1]
    all_goals simp [socketCall, ttlCall, sendCall, List.count_cons,
      List.filter, isBind, isRecv, isClose, isJoin]

end MCsend
